import Mathlib

/-
Verification development for the VSmesh repository (two GUI prototypes:
Mainport.py, a tkinter/customtkinter program, and Main.py, a PySide6
program).  The definitions below are a shallow embedding of the state and
the event handlers of the two programs; Python floats are modelled as
exact rationals, machine integers as Int, the tkinter dict of tabs as an
insertion-ordered association list, and the ttk.Notebook tab strip as a
plain list of tab labels (it admits duplicate labels, as the widget does).
-/

namespace Mainport

/- InfiniteGrid (Mainport.py, lines 9-70).  The widget state consists of
the zoom scale, the two pan offsets and the last recorded mouse position
(None between drags). -/
structure GridState where
  scale_factor : Rat
  pan_offset_x : Int
  pan_offset_y : Int
  last_mouse_pos : Option (Int × Int)
deriving DecidableEq

/- Constants from InfiniteGrid.__init__ (lines 13-21).  1.25 and 0.8 from
wheel_event are modelled as the exact rationals 5/4 and 4/5. -/
def max_scale_factor : Rat := 17/20
def min_scale_factor : Rat := 1/4
def pan_limit_x : Int := 5000
def pan_limit_y : Int := 5000
def zoom_in_factor : Rat := 5/4
def zoom_out_factor : Rat := 4/5

/- InfiniteGrid.__init__: scale_factor 1.0, pan offsets 0, last_mouse_pos None. -/
def gridInit : GridState :=
  { scale_factor := 1, pan_offset_x := 0, pan_offset_y := 0, last_mouse_pos := none }

/- wheel_event (lines 43-51): pick the zoom factor from the wheel delta,
and update scale_factor only when the product stays inside
[min_scale_factor, max_scale_factor]. -/
def zoomFactorOf (delta : Int) : Rat :=
  if delta > 0 then zoom_in_factor else zoom_out_factor

def wheel_event (st : GridState) (delta : Int) : GridState :=
  if min_scale_factor ≤ st.scale_factor * zoomFactorOf delta ∧
      st.scale_factor * zoomFactorOf delta ≤ max_scale_factor then
    { st with scale_factor := st.scale_factor * zoomFactorOf delta }
  else st

/- mouse_press (lines 53-55): record the position. -/
def mouse_press (st : GridState) (x y : Int) : GridState :=
  { st with last_mouse_pos := some (x, y) }

/- mouse_move (lines 57-66): when a position is recorded, pan by the
delta, clamping each offset into [-pan_limit, pan_limit]. -/
def mouse_move (st : GridState) (x y : Int) : GridState :=
  match st.last_mouse_pos with
  | none => st
  | some (lx, ly) =>
    { st with
      pan_offset_x := max (min (st.pan_offset_x + (x - lx)) pan_limit_x) (-pan_limit_x)
      pan_offset_y := max (min (st.pan_offset_y + (y - ly)) pan_limit_y) (-pan_limit_y)
      last_mouse_pos := some (x, y) }

/- mouse_release (lines 68-70): forget the position. -/
def mouse_release (st : GridState) : GridState :=
  { st with last_mouse_pos := none }

inductive GridEvent
  | press (x y : Int)
  | move (x y : Int)
  | release
  | wheel (delta : Int)
deriving DecidableEq

def gridStep (st : GridState) (e : GridEvent) : GridState :=
  match e with
  | .press x y => mouse_press st x y
  | .move x y => mouse_move st x y
  | .release => mouse_release st
  | .wheel d => wheel_event st d

/- The grid state reached from a fresh widget after a sequence of events. -/
def runGrid (es : List GridEvent) : GridState :=
  es.foldl gridStep gridInit

/- MainWindow (Mainport.py, lines 74-193).  self.tabs maps a tab name to
the widgets created for that tab by add_tab; only the grid widget carries
mutable state, so a tab's data is modelled by its grid state (the two
read-only panels are constant). -/
structure TabData where
  grid : GridState
deriving DecidableEq

def defaultTabData : TabData := { grid := gridInit }

/- A Python dict as an insertion-ordered association list: assigning an
existing key replaces the value in place, a new key is appended. -/
def dictInsert : List (String × TabData) → String → TabData → List (String × TabData)
  | [], k, v => [(k, v)]
  | (k', v') :: rest, k, v =>
    if k' = k then (k, v) :: rest else (k', v') :: dictInsert rest k v

structure MainWindowState where
  tabs : List (String × TabData)
  notebook : List String
deriving DecidableEq

/- add_tab (lines 94-126): always adds a new notebook tab labelled with
the name, and binds self.tabs[name] to the freshly created widgets. -/
def add_tab (st : MainWindowState) (name : String) : MainWindowState :=
  { tabs := dictInsert st.tabs name defaultTabData
    notebook := st.notebook ++ [name] }

/- MainWindow.__init__ (lines 75-92): empty tabs, then add_tab("Script 1"). -/
def windowInit : MainWindowState :=
  add_tab { tabs := [], notebook := [] } "Script 1"

/- new_script (lines 191-193). -/
def new_script (st : MainWindowState) : MainWindowState :=
  add_tab st ("Script " ++ toString (st.tabs.length + 1))

/- generate_code (lines 147-149): the handler only prints a line; the
result models (state after the call, the printed line, the Python return
value, which is None). -/
def generate_code (language : String) (st : MainWindowState) :
    MainWindowState × String × Option String :=
  (st, "Generated " ++ language ++ " code.", none)

/- save_to_vsm1 (lines 157-168): one archive entry per tab, named
"{tab_name}.vs", holding the string "Generated code for {tab_name}.";
tab_data is never consulted. -/
def save_to_vsm1 (tabs : List (String × TabData)) : List (String × String) :=
  tabs.map (fun t => (t.1 ++ ".vs", "Generated code for " ++ t.1 ++ "."))

/- The bytes written to disk, as the list of readable entries. -/
def saveBytes (st : MainWindowState) : List (String × Option String) :=
  (save_to_vsm1 st.tabs).map (fun e => (e.1, some e.2))

/- Python's file_name.replace(".vs", ""): remove every occurrence of the
three characters ".vs", scanning left to right. -/
def removeVs : List Char → List Char
  | '.' :: 'v' :: 's' :: rest => removeVs rest
  | c :: rest => c :: removeVs rest
  | [] => []

def pyReplaceVs (s : String) : String := String.mk (removeVs s.data)

/- load_from_vsm1 (lines 176-189).  An archive is a list of entries; an
entry whose payload is none models one whose read()/decode() raises.  The
loop reads an entry, then calls add_tab on the name with ".vs" removed;
an exception aborts the loop (caught by the surrounding except clause,
which only reports it), leaving every tab added so far in place.  The
Bool records whether the loop ran to completion. -/
def loadEntries : MainWindowState → List (String × Option String) → MainWindowState × Bool
  | st, [] => (st, true)
  | st, (file_name, some _) :: rest => loadEntries (add_tab st (pyReplaceVs file_name)) rest
  | st, (_, none) :: _ => (st, false)

def load_from_vsm1 (st : MainWindowState) (archive : List (String × Option String)) :
    MainWindowState :=
  (loadEntries st archive).1

/- create_menu (lines 128-145): the File menu commands and the Generate
Code menu commands, by label. -/
def file_menu_labels : List String := ["New Script", "Save As...", "Load"]
def generate_menu_labels : List String := ["GDScript", "Python"]

/- Pan-clamp invariant of the Mainport grid. -/
def panInv (st : GridState) : Prop :=
  -pan_limit_x ≤ st.pan_offset_x ∧ st.pan_offset_x ≤ pan_limit_x ∧
  -pan_limit_y ≤ st.pan_offset_y ∧ st.pan_offset_y ≤ pan_limit_y

/- Zoom invariant actually maintained by the code: the scale is still the
initial 1.0, or it lies inside the clamp interval. -/
def scaleInv (st : GridState) : Prop :=
  st.scale_factor = 1 ∨
  (min_scale_factor ≤ st.scale_factor ∧ st.scale_factor ≤ max_scale_factor)

end Mainport

namespace MainQt

/- InfiniteGrid (Main.py, lines 23-98).  hScroll/vScroll are the two
scrollbar values written by mouseMoveEvent.  last_mouse_pos is an
attribute that the constructor never creates: none models the attribute
being absent, and reading it then raises AttributeError. -/
structure QtGridState where
  scale_factor : Rat
  hScroll : Int
  vScroll : Int
  last_mouse_pos : Option (Int × Int)
deriving DecidableEq

def max_scale_factor : Rat := 17/20
def min_scale_factor : Rat := 1/4
def pan_limit_x : Int := 5000
def pan_limit_y : Int := 5000
def zoom_in_factor : Rat := 5/4
def zoom_out_factor : Rat := 4/5

/- InfiniteGrid.__init__ (lines 24-48): scale_factor 1.0; the scrollbar
values are whatever Qt set them to; last_mouse_pos is never assigned. -/
def qtGridInit (h0 v0 : Int) : QtGridState :=
  { scale_factor := 1, hScroll := h0, vScroll := v0, last_mouse_pos := none }

/- wheelEvent (lines 64-74): same arithmetic as Mainport.wheel_event,
keyed on angleDelta().y(). -/
def zoomFactorOf (angleDeltaY : Int) : Rat :=
  if angleDeltaY > 0 then zoom_in_factor else zoom_out_factor

def wheelEvent (st : QtGridState) (angleDeltaY : Int) : QtGridState :=
  if min_scale_factor ≤ st.scale_factor * zoomFactorOf angleDeltaY ∧
      st.scale_factor * zoomFactorOf angleDeltaY ≤ max_scale_factor then
    { st with scale_factor := st.scale_factor * zoomFactorOf angleDeltaY }
  else st

/- mousePressEvent (lines 76-81): assigns last_mouse_pos only for the
left button. -/
def mousePressEvent (st : QtGridState) (isLeft : Bool) (pos : Int × Int) : QtGridState :=
  if isLeft then { st with last_mouse_pos := some pos } else st

/- mouseMoveEvent (lines 83-92).  Python evaluates
event.buttons() & Qt.LeftButton first; only when the left button is held
does it read self.last_mouse_pos, which raises AttributeError when the
attribute was never assigned.  mapToScene is the view's point mapping,
kept abstract.  On a successful pan both scrollbar values are written
clamped into [-pan_limit, pan_limit]. -/
def mouseMoveEvent (mapToScene : Int × Int → Int × Int) (st : QtGridState)
    (leftHeld : Bool) (pos : Int × Int) : Except String QtGridState :=
  if leftHeld then
    match st.last_mouse_pos with
    | none => Except.error "AttributeError: last_mouse_pos"
    | some lp =>
      Except.ok
        { st with
          hScroll := max (min (st.hScroll - ((mapToScene pos).1 - (mapToScene lp).1)) pan_limit_x)
            (-pan_limit_x)
          vScroll := max (min (st.vScroll - ((mapToScene pos).2 - (mapToScene lp).2)) pan_limit_y)
            (-pan_limit_y)
          last_mouse_pos := some pos }
  else Except.ok st

/- MainWindow (Main.py, lines 100-126): an InfiniteGrid as the central
widget and two empty dock panels.  The constructor creates no menu bar
actions and no tab container of any kind. -/
structure MainWindow where
  windowTitle : String
  centralGrid : Bool
  dockTitles : List String
  menuActions : List String
  tabContainer : Option (List String)
deriving DecidableEq

def mainWindowInit : MainWindow :=
  { windowTitle := "VSmesh"
    centralGrid := true
    dockTitles := ["Functions and Variables", "Generated Code"]
    menuActions := []
    tabContainer := none }

end MainQt

/- Concrete data used to instantiate the universally quantified theorems
below: two one-tab collections sharing the tab name "A" but with
different grid states inside the tab, and a pair of PySide6 grid states
before and after one clamped pan. -/
def tabsA : List (String × Mainport.TabData) :=
  [("A", { grid := Mainport.gridInit })]

def tabsB : List (String × Mainport.TabData) :=
  [("A", { grid := { scale_factor := 1/2, pan_offset_x := 7, pan_offset_y := 9,
                     last_mouse_pos := some (1, 2) } })]

def qtStateA : MainQt.QtGridState :=
  { scale_factor := 1, hScroll := 0, vScroll := 0, last_mouse_pos := some (0, 0) }

def qtStateB : MainQt.QtGridState :=
  { scale_factor := 1, hScroll := -5000, vScroll := 0, last_mouse_pos := some (9000, 0) }

/- Loading a list of readable entries folds add_tab over the stripped
entry names. -/
theorem loadEntries_map_some (l : List (String × String)) :
    ∀ st : Mainport.MainWindowState,
      Mainport.loadEntries st (l.map (fun e => (e.1, some e.2)))
        = (l.foldl (fun acc e => Mainport.add_tab acc (Mainport.pyReplaceVs e.1)) st, true) := by
  induction l with
  | nil => intro st; rfl
  | cons e rest ih =>
    intro st
    obtain ⟨fn, d⟩ := e
    simpa [Mainport.loadEntries] using ih (Mainport.add_tab st (Mainport.pyReplaceVs fn))

theorem foldl_add_tab_notebook (names : List String) :
    ∀ st : Mainport.MainWindowState,
      (names.foldl (fun acc n => Mainport.add_tab acc n) st).notebook
        = st.notebook ++ names := by
  induction names with
  | nil => intro st; simp
  | cons n rest ih =>
    intro st
    simp only [List.foldl_cons]
    rw [ih]
    simp [Mainport.add_tab]

/-- Claim C1, counterexample: the claim says load(save(P)) is structurally
equal to P.  Take P to be the freshly started window, whose single tab is
"Script 1": loading the bytes saved from P into that window yields a
notebook with two tabs, not P's one, so the loaded project is not P. -/
theorem C1_counterexample :
    (Mainport.load_from_vsm1 Mainport.windowInit
        (Mainport.saveBytes Mainport.windowInit)).notebook
      ≠ Mainport.windowInit.notebook := by decide

/-- Claim C1 (amended): loading the bytes produced by saving P does not
reconstruct P.  load_from_vsm1 appends to the loading window's existing
tabs one new default-content tab per saved entry, labelled with every
occurrence of ".vs" removed from "name.vs"; no node, parameter, position
or link data is restored, and the pre-existing tabs remain. -/
theorem C1_theorem (st P : Mainport.MainWindowState) :
    (Mainport.load_from_vsm1 st (Mainport.saveBytes P)).notebook
      = st.notebook ++ P.tabs.map (fun t => Mainport.pyReplaceVs (t.1 ++ ".vs")) := by
  unfold Mainport.load_from_vsm1 Mainport.saveBytes
  rw [loadEntries_map_some]
  rw [show (∀ x : Mainport.MainWindowState × Bool, x.1 = x.fst) from fun _ => rfl]
  rw [← List.foldl_map, foldl_add_tab_notebook]
  congr 1
  simp [Mainport.save_to_vsm1, List.map_map, Function.comp]

/-- Claim C2, counterexample: load an archive whose first entry is
readable and whose second raises: the load reports failure, yet the
window's tab collection is not what it was before the load began — the
tab created from the first entry remains. -/
theorem C2_counterexample :
    (Mainport.loadEntries Mainport.windowInit
        [("A.vs", some "x"), ("B.vs", none)]).2 = false ∧
    (Mainport.loadEntries Mainport.windowInit
        [("A.vs", some "x"), ("B.vs", none)]).1.notebook
      ≠ Mainport.windowInit.notebook := by decide

/-- Claim C2 (amended): a failure while loading entry k aborts the loop
and is only reported; every tab created from the entries before k stays,
so a failed load can leave the project half-populated — exactly the tabs
from the prefix before the failing entry are added, and nothing is rolled
back. -/
theorem C2_theorem (st : Mainport.MainWindowState) (good : List (String × String))
    (fn : String) (rest : List (String × Option String)) :
    Mainport.loadEntries st (good.map (fun e => (e.1, some e.2)) ++ (fn, none) :: rest)
      = (good.foldl (fun acc e => Mainport.add_tab acc (Mainport.pyReplaceVs e.1)) st, false) := by
  induction good generalizing st with
  | nil => rfl
  | cons e g ih =>
    obtain ⟨a, b⟩ := e
    simpa [Mainport.loadEntries] using ih (Mainport.add_tab st (Mainport.pyReplaceVs a))

/- A wheel event either keeps the scale or moves it into the clamp
interval (Mainport). -/
theorem wheel_clamp (st : Mainport.GridState) (d : Int) :
    (Mainport.wheel_event st d).scale_factor = st.scale_factor ∨
    (Mainport.min_scale_factor ≤ (Mainport.wheel_event st d).scale_factor ∧
     (Mainport.wheel_event st d).scale_factor ≤ Mainport.max_scale_factor) := by
  unfold Mainport.wheel_event
  split
  case isTrue h => exact Or.inr h
  case isFalse h => exact Or.inl rfl

/- The same for the PySide6 prototype. -/
theorem wheel_clamp_qt (st : MainQt.QtGridState) (y : Int) :
    (MainQt.wheelEvent st y).scale_factor = st.scale_factor ∨
    (MainQt.min_scale_factor ≤ (MainQt.wheelEvent st y).scale_factor ∧
     (MainQt.wheelEvent st y).scale_factor ≤ MainQt.max_scale_factor) := by
  unfold MainQt.wheelEvent
  split
  case isTrue h => exact Or.inr h
  case isFalse h => exact Or.inl rfl

theorem gridStep_scaleInv (st : Mainport.GridState) (e : Mainport.GridEvent)
    (h : Mainport.scaleInv st) : Mainport.scaleInv (Mainport.gridStep st e) := by
  cases e with
  | press x y => exact h
  | release => exact h
  | move x y =>
    unfold Mainport.scaleInv Mainport.gridStep Mainport.mouse_move at *
    cases hl : st.last_mouse_pos with
    | none => simpa [hl] using h
    | some p => obtain ⟨lx, ly⟩ := p; simpa [hl] using h
  | wheel d =>
    rcases wheel_clamp st d with he | hb
    · show (Mainport.wheel_event st d).scale_factor = 1 ∨
        (Mainport.min_scale_factor ≤ (Mainport.wheel_event st d).scale_factor ∧
         (Mainport.wheel_event st d).scale_factor ≤ Mainport.max_scale_factor)
      rw [he]
      exact h
    · exact Or.inr hb

theorem foldl_gridStep_scaleInv (es : List Mainport.GridEvent) :
    ∀ st : Mainport.GridState, Mainport.scaleInv st →
      Mainport.scaleInv (es.foldl Mainport.gridStep st) := by
  induction es with
  | nil => intro st h; exact h
  | cons e rest ih => intro st h; exact ih _ (gridStep_scaleInv st e h)

/-- Claim C3, counterexample: the claim says that after the constructor
the view's scale_factor lies in [0.25, 0.85].  In both prototypes the
constructor sets scale_factor to 1.0, which is above max_scale_factor =
0.85, so after the constructor (the empty sequence of wheel events) the
scale lies outside the claimed interval. -/
theorem C3_counterexample :
    (Mainport.runGrid []).scale_factor = 1 ∧
    ¬ (Mainport.min_scale_factor ≤ (Mainport.runGrid []).scale_factor ∧
       (Mainport.runGrid []).scale_factor ≤ Mainport.max_scale_factor) ∧
    (MainQt.qtGridInit 0 0).scale_factor = 1 ∧
    ¬ (MainQt.min_scale_factor ≤ (MainQt.qtGridInit 0 0).scale_factor ∧
       (MainQt.qtGridInit 0 0).scale_factor ≤ MainQt.max_scale_factor) := by
  refine ⟨rfl, ?_, rfl, ?_⟩
  · rintro ⟨-, h2⟩
    rw [show (Mainport.runGrid []).scale_factor = 1 from rfl] at h2
    unfold Mainport.max_scale_factor at h2
    norm_num at h2
  · rintro ⟨-, h2⟩
    rw [show (MainQt.qtGridInit 0 0).scale_factor = 1 from rfl] at h2
    unfold MainQt.max_scale_factor at h2
    norm_num at h2

/-- Claim C3 (amended): in both prototypes the constructor sets
scale_factor to 1.0, which lies above max_scale_factor; every wheel event
either leaves scale_factor unchanged (in particular when the resulting
scale would fall outside [min_scale_factor, max_scale_factor]) or sets it
to a value inside that interval; consequently after every sequence of
events the scale is either still the initial 1.0 or lies inside
[0.25, 0.85]. -/
theorem C3_theorem :
    (∀ (st : Mainport.GridState) (d : Int),
        (Mainport.wheel_event st d).scale_factor = st.scale_factor ∨
        (Mainport.min_scale_factor ≤ (Mainport.wheel_event st d).scale_factor ∧
         (Mainport.wheel_event st d).scale_factor ≤ Mainport.max_scale_factor)) ∧
    (∀ (st : MainQt.QtGridState) (y : Int),
        (MainQt.wheelEvent st y).scale_factor = st.scale_factor ∨
        (MainQt.min_scale_factor ≤ (MainQt.wheelEvent st y).scale_factor ∧
         (MainQt.wheelEvent st y).scale_factor ≤ MainQt.max_scale_factor)) ∧
    (∀ es : List Mainport.GridEvent, Mainport.scaleInv (Mainport.runGrid es)) := by
  refine ⟨wheel_clamp, wheel_clamp_qt, ?_⟩
  intro es
  exact foldl_gridStep_scaleInv es Mainport.gridInit (Or.inl rfl)

/-- Claim C4, counterexample: the claim says both prototypes provide a
tabbed workspace, a save/load/generate-code menu and a ZIP save format.
The PySide6 prototype's main window creates no menu actions at all and no
tab container of any kind (its constructor only installs the grid view
and two empty dock panels), so Main.py provides neither a tabbed
workspace nor a save/load/generate menu nor a save format. -/
theorem C4_counterexample :
    MainQt.mainWindowInit.menuActions = [] ∧
    MainQt.mainWindowInit.tabContainer = none := ⟨rfl, rfl⟩

/-- Claim C4 (amended): only Mainport.py provides all four features — its
File menu offers New Script, Save As... and Load, its Generate Code menu
offers GDScript and Python, its workspace starts with the notebook tab
"Script 1", and its save routine writes one entry per tab.  Main.py
provides only the pannable/zoomable infinite canvas (as the central
widget) plus two empty dock panels: it creates no menu actions and no tab
container, and contains no save/load code. -/
theorem C4_theorem :
    "Save As..." ∈ Mainport.file_menu_labels ∧
    "Load" ∈ Mainport.file_menu_labels ∧
    "New Script" ∈ Mainport.file_menu_labels ∧
    Mainport.generate_menu_labels = ["GDScript", "Python"] ∧
    Mainport.windowInit.notebook = ["Script 1"] ∧
    (∀ tabs : List (String × Mainport.TabData),
        (Mainport.save_to_vsm1 tabs).length = tabs.length) ∧
    MainQt.mainWindowInit.centralGrid = true ∧
    MainQt.mainWindowInit.menuActions = [] ∧
    MainQt.mainWindowInit.tabContainer = none := by
  refine ⟨?_, ?_, ?_, rfl, rfl, ?_, rfl, rfl, rfl⟩
  · simp [Mainport.file_menu_labels]
  · simp [Mainport.file_menu_labels]
  · simp [Mainport.file_menu_labels]
  · intro tabs
    simp [Mainport.save_to_vsm1]

/-- Claim C5: saving produces one archive entry per stored tab, the entry
is named after the tab (tab name followed by ".vs"), and its content is
the placeholder "Generated code for {tab}." — a function of the tab name
alone, independent of any graph/grid content: two tab collections with
the same names, whatever the data inside each tab, save to identical
archives. -/
theorem C5_theorem (tabs tabs' : List (String × Mainport.TabData))
    (h : tabs.map Prod.fst = tabs'.map Prod.fst) :
    Mainport.save_to_vsm1 tabs = Mainport.save_to_vsm1 tabs' ∧
    (Mainport.save_to_vsm1 tabs).map Prod.fst = tabs.map (fun t => t.1 ++ ".vs") ∧
    (Mainport.save_to_vsm1 tabs).map Prod.snd
      = tabs.map (fun t => "Generated code for " ++ t.1 ++ ".") := by
  have key : ∀ l : List (String × Mainport.TabData),
      Mainport.save_to_vsm1 l
        = (l.map Prod.fst).map
            (fun n => (n ++ ".vs", "Generated code for " ++ n ++ ".")) := by
    intro l
    simp [Mainport.save_to_vsm1, List.map_map, Function.comp]
  refine ⟨?_, ?_, ?_⟩
  · rw [key tabs, key tabs', h]
  · rw [key tabs]
    simp [List.map_map, Function.comp]
  · rw [key tabs]
    simp [List.map_map, Function.comp]

/-- Witness for C5 at the concrete tab collections tabsA and tabsB: the
same single tab name "A" with different grid data inside the tab. -/
theorem C5_witness :
    Mainport.save_to_vsm1 tabsA = Mainport.save_to_vsm1 tabsB ∧
    (Mainport.save_to_vsm1 tabsA).map Prod.fst = tabsA.map (fun t => t.1 ++ ".vs") ∧
    (Mainport.save_to_vsm1 tabsA).map Prod.snd
      = tabsA.map (fun t => "Generated code for " ++ t.1 ++ ".") :=
  C5_theorem tabsA tabsB rfl

/-- Claim C6: for every language argument, the generate-code handler only
prints the line "Generated {language} code.": the window state (tabs and
all) after the call is the state before it, and the handler returns no
generated source (Python returns None). -/
theorem C6_theorem (language : String) (st : Mainport.MainWindowState) :
    (Mainport.generate_code language st).1 = st ∧
    (Mainport.generate_code language st).2.1 = "Generated " ++ language ++ " code." ∧
    (Mainport.generate_code language st).2.2 = none :=
  ⟨rfl, rfl, rfl⟩

/- Clamping into [-L, L] lands inside [-L, L] whenever 0 ≤ L. -/
theorem clamp_bounds (a L : Int) (hL : 0 ≤ L) :
    -L ≤ max (min a L) (-L) ∧ max (min a L) (-L) ≤ L :=
  ⟨le_max_right _ _,
   max_le (min_le_right _ _) (le_trans (neg_nonpos_of_nonneg hL) hL)⟩

theorem gridStep_panInv (st : Mainport.GridState) (e : Mainport.GridEvent)
    (h : Mainport.panInv st) : Mainport.panInv (Mainport.gridStep st e) := by
  cases e with
  | press x y => exact h
  | release => exact h
  | wheel d =>
    show Mainport.panInv (Mainport.wheel_event st d)
    unfold Mainport.wheel_event
    split
    · exact h
    · exact h
  | move x y =>
    show Mainport.panInv (Mainport.mouse_move st x y)
    unfold Mainport.mouse_move
    cases hl : st.last_mouse_pos with
    | none => exact h
    | some p =>
      obtain ⟨lx, ly⟩ := p
      have hx := clamp_bounds (st.pan_offset_x + (x - lx)) Mainport.pan_limit_x (by norm_num [Mainport.pan_limit_x])
      have hy := clamp_bounds (st.pan_offset_y + (y - ly)) Mainport.pan_limit_y (by norm_num [Mainport.pan_limit_y])
      exact ⟨hx.1, hx.2, hy.1, hy.2⟩

theorem foldl_gridStep_panInv (es : List Mainport.GridEvent) :
    ∀ st : Mainport.GridState, Mainport.panInv st →
      Mainport.panInv (es.foldl Mainport.gridStep st) := by
  induction es with
  | nil => intro st h; exact h
  | cons e rest ih => intro st h; exact ih _ (gridStep_panInv st e h)

/-- Claim C7: panning is clamped in both prototypes.  In Mainport.py,
after every sequence of press/move/release/wheel events starting from the
fresh widget, both pan offsets lie in [-5000, 5000].  In Main.py,
whenever mouseMoveEvent performs its pan (left button held and a last
position recorded), the scrollbar values it writes both lie in
[-5000, 5000], for every view mapping and mouse position. -/
theorem C7_theorem :
    (∀ es : List Mainport.GridEvent, Mainport.panInv (Mainport.runGrid es)) ∧
    (∀ (m : Int × Int → Int × Int) (st : MainQt.QtGridState)
       (pos lp : Int × Int) (st' : MainQt.QtGridState),
        st.last_mouse_pos = some lp →
        MainQt.mouseMoveEvent m st true pos = Except.ok st' →
        -MainQt.pan_limit_x ≤ st'.hScroll ∧ st'.hScroll ≤ MainQt.pan_limit_x ∧
        -MainQt.pan_limit_y ≤ st'.vScroll ∧ st'.vScroll ≤ MainQt.pan_limit_y) := by
  constructor
  · intro es
    exact foldl_gridStep_panInv es Mainport.gridInit
      ⟨by norm_num [Mainport.gridInit, Mainport.pan_limit_x],
       by norm_num [Mainport.gridInit, Mainport.pan_limit_x],
       by norm_num [Mainport.gridInit, Mainport.pan_limit_y],
       by norm_num [Mainport.gridInit, Mainport.pan_limit_y]⟩
  · intro m st pos lp st' hlp hok
    unfold MainQt.mouseMoveEvent at hok
    rw [hlp] at hok
    simp only [if_true, Except.ok.injEq] at hok
    subst hok
    have hx := clamp_bounds (st.hScroll - ((m pos).1 - (m lp).1)) MainQt.pan_limit_x
      (by norm_num [MainQt.pan_limit_x])
    have hy := clamp_bounds (st.vScroll - ((m pos).2 - (m lp).2)) MainQt.pan_limit_y
      (by norm_num [MainQt.pan_limit_y])
    exact ⟨hx.1, hx.2, hy.1, hy.2⟩

/-- Witness for C7: a drag of 9000 pixels left from the origin on the
fresh Mainport grid stays clamped, and one PySide6 pan step from
qtStateA under the identity view mapping writes the clamped scrollbar
values of qtStateB. -/
theorem C7_witness :
    Mainport.panInv (Mainport.runGrid
      [Mainport.GridEvent.press 0 0, Mainport.GridEvent.move 9000 9000]) ∧
    (-MainQt.pan_limit_x ≤ qtStateB.hScroll ∧ qtStateB.hScroll ≤ MainQt.pan_limit_x ∧
     -MainQt.pan_limit_y ≤ qtStateB.vScroll ∧ qtStateB.vScroll ≤ MainQt.pan_limit_y) :=
  ⟨C7_theorem.1 [Mainport.GridEvent.press 0 0, Mainport.GridEvent.move 9000 9000],
   C7_theorem.2 (fun p => p) qtStateA (9000, 0) (0, 0) qtStateB rfl rfl⟩

/-- Claim C8 (noted as a code bug): the add_tab docstring promises a tab
with a unique name and the spec requires tab names to be unique, but the
code never enforces it.  Loading an archive that contains the entry
"Script 1.vs" into the freshly started window (whose tab is already named
"Script 1") puts two tabs labelled "Script 1" in the notebook, while
self.tabs keeps a single entry bound to the newer tab's widgets — so the
stored name no longer refers to exactly one tab's widgets. -/
theorem C8_theorem :
    (Mainport.load_from_vsm1 Mainport.windowInit
        [("Script 1.vs", some "payload")]).notebook = ["Script 1", "Script 1"] ∧
    ¬ (Mainport.load_from_vsm1 Mainport.windowInit
        [("Script 1.vs", some "payload")]).notebook.Nodup ∧
    (Mainport.load_from_vsm1 Mainport.windowInit
        [("Script 1.vs", some "payload")]).tabs.length = 1 := by
  refine ⟨by decide, ?_, by decide⟩
  intro hnd
  have : (Mainport.load_from_vsm1 Mainport.windowInit
      [("Script 1.vs", some "payload")]).notebook = ["Script 1", "Script 1"] := by decide
  rw [this] at hnd
  simp at hnd

/-- Claim C9: the generate operation present in the source is the stub
handler generate_code; its printed output is a function of the language
alone, so two calls on the same (graph, language, registry) inputs — in
fact on any two window states — produce byte-identical output. -/
theorem C9_theorem (language : String) (st st' : Mainport.MainWindowState) :
    (Mainport.generate_code language st).2.1
      = (Mainport.generate_code language st').2.1 := rfl

/-- Claim C10: in Main.py the constructor produces a grid whose
last_mouse_pos attribute is absent, mousePressEvent is the only handler
that assigns it, and a mouse-move event with the left button held that
reaches a freshly constructed grid before any press raises AttributeError
instead of being a no-op — for every view mapping, initial scrollbar
values and mouse position. -/
theorem C10_theorem (m : Int × Int → Int × Int) (h0 v0 : Int) (pos pos' : Int × Int) :
    (MainQt.qtGridInit h0 v0).last_mouse_pos = none ∧
    MainQt.mouseMoveEvent m (MainQt.qtGridInit h0 v0) true pos
      = Except.error "AttributeError: last_mouse_pos" ∧
    (MainQt.mousePressEvent (MainQt.qtGridInit h0 v0) true pos').last_mouse_pos
      = some pos' :=
  ⟨rfl, rfl, rfl⟩
